import Mathlib

/-!
Verification of the KZ Legal RAG repository (rag_api.py, rag_pipeline.py,
rag_data.py, api.py, query_rag.py) against its natural-language
specification.  The Python sources are shallowly embedded: pure helpers
become Lean functions, the lazily initialised vector-store handle becomes
explicit state passing, the external libraries (Chroma similarity search,
the chat-completion model, the filesystem) become oracle fields of a
`World` record, and Python exceptions become `Except`.  Python `int` is
`Int`, Python string parsing (`int(s)`, `float(s)`) is modelled by
executable parsers over the character list, and a parsed Python float is
represented exactly (finite values as rationals, plus infinities and NaN),
since only which branch the parse takes — never rounding — matters to the
properties checked here.
-/

namespace RAGSystem

/-! ## Python string helpers -/

/-- Python `str.strip()`: drop whitespace from both ends.  (Defined over
the character list so that it reduces inside the kernel; `String.trim`
does not.) -/
def pyStrip (s : String) : String :=
  String.mk (((s.toList.dropWhile Char.isWhitespace).reverse.dropWhile
    Char.isWhitespace).reverse)

/-- Python `str.lower()` (over the character list so that it reduces in
the kernel; `String.toLower` does not). -/
def pyLower (s : String) : String :=
  String.mk (s.toList.map Char.toLower)

/-- Python `str.replace(",", ".")`: with a one-character pattern this is a
character map. -/
def replaceCommas (s : String) : String :=
  String.mk (s.toList.map (fun c => if c = ',' then '.' else c))

/-! ## Python number parsing (the `int(...)` / `float(...)` builtins) -/

/-- Numeric value of a list of decimal digit characters, most significant
first. -/
def digitsVal (ds : List Char) : Nat :=
  ds.foldl (fun a c => 10 * a + (c.toNat - 48)) 0

/-- Consume a run `digit (underscore? digit)*` greedily, as CPython's
number grammar does (a single underscore is allowed between two digits).
Returns the digits consumed (underscores dropped) and the rest of the
input.  Callers must ensure the first character is a digit. -/
def digitTail : List Char → List Char × List Char
  | [] => ([], [])
  | [c] => if c.isDigit then ([c], []) else ([], [c])
  | c :: d :: rest =>
    if c.isDigit then
      let (ds, r) := digitTail (d :: rest)
      (c :: ds, r)
    else if c == '_' && d.isDigit then
      let (ds, r) := digitTail rest
      (d :: ds, r)
    else ([], c :: d :: rest)

/-- Parse a digit group that must start with a digit; `none` otherwise. -/
def parseDigits (l : List Char) : Option (List Char × List Char) :=
  match l with
  | c :: _ => if c.isDigit then some (digitTail l) else none
  | [] => none

/-- Parse a full unsigned digit string (must consume all input). -/
def pyIntCore (l : List Char) : Option Nat :=
  match parseDigits l with
  | some (ds, []) => some (digitsVal ds)
  | _ => none

/-- CPython `int(s)` with the default base: optional surrounding
whitespace, optional sign, then decimal digits with optional single
underscores between digits.  `none` models `ValueError`. -/
def pyInt? (s : String) : Option Int :=
  match (pyStrip s).toList with
  | '+' :: rest => (pyIntCore rest).map (fun n => (n : Int))
  | '-' :: rest => (pyIntCore rest).map (fun n => -(n : Int))
  | l => (pyIntCore l).map (fun n => (n : Int))

/-- Result of a successful CPython `float(s)`: finite values are kept
exactly as rationals; infinities and NaN are the remaining cases. -/
inductive PyFloat where
  | finite (q : Rat)
  | infinite (neg : Bool)
  | nan
deriving DecidableEq, Repr

/-- Exact value `sign * m * 10 ^ e` of a decimal literal with integer
mantissa `m` and exponent `e`, as a rational. -/
def decValue (neg : Bool) (m : Nat) (e : Int) : Rat :=
  let n : Int := if neg then -(m : Int) else (m : Int)
  if 0 ≤ e then Rat.divInt (n * (10 : Int) ^ e.toNat) 1
  else Rat.divInt n ((10 : Int) ^ (-e).toNat)

/-- Exact value of a parsed decimal literal: integer digits `d1`,
fractional digits `d2`, exponent `e`, sign `neg`. -/
def floatValue (neg : Bool) (d1 d2 : List Char) (e : Int) : Rat :=
  decValue neg (digitsVal (d1 ++ d2)) (e - (d2.length : Int))

/-- Parse the mantissa `digits? ('.' digits?)?` of a float literal,
returning integer digits, fractional digits and the rest; fails when no
digit occurs at all. -/
def parseMantissa (l : List Char) : Option (List Char × List Char × List Char) :=
  let p1 := match l with
    | c :: _ => if c.isDigit then digitTail l else ([], l)
    | [] => ([], l)
  match p1.2 with
  | '.' :: r2 =>
    let p2 := match r2 with
      | c :: _ => if c.isDigit then digitTail r2 else ([], r2)
      | [] => ([], r2)
    if p1.1 = [] ∧ p2.1 = [] then none else some (p1.1, p2.1, p2.2)
  | _ => if p1.1 = [] then none else some (p1.1, [], p1.2)

/-- Parse an optionally signed all-consuming digit string. -/
def parseSignedDigits (l : List Char) : Option Int :=
  match l with
  | '+' :: r => (pyIntCore r).map (fun n => (n : Int))
  | '-' :: r => (pyIntCore r).map (fun n => -(n : Int))
  | r => (pyIntCore r).map (fun n => (n : Int))

/-- Parse the optional exponent part `(e|E) sign? digits` (empty input
means exponent `0`). -/
def parseExp (l : List Char) : Option Int :=
  match l with
  | [] => some 0
  | 'e' :: rest => parseSignedDigits rest
  | 'E' :: rest => parseSignedDigits rest
  | _ => none

/-- Parse a float literal after the optional sign: the special spellings
`inf`, `infinity`, `nan` (case-insensitive), or mantissa plus exponent. -/
def parseFloatBody (neg : Bool) (l : List Char) : Option PyFloat :=
  let lower := l.map Char.toLower
  if lower = "inf".toList then some (.infinite neg)
  else if lower = "infinity".toList then some (.infinite neg)
  else if lower = "nan".toList then some .nan
  else
    match parseMantissa l with
    | none => none
    | some (d1, d2, rest) =>
      match parseExp rest with
      | none => none
      | some e => some (.finite (floatValue neg d1 d2 e))

/-- CPython `float(s)`: optional surrounding whitespace, optional sign,
then a float literal.  `none` models `ValueError`. -/
def pyFloat? (s : String) : Option PyFloat :=
  match (pyStrip s).toList with
  | '+' :: rest => parseFloatBody false rest
  | '-' :: rest => parseFloatBody true rest
  | l => parseFloatBody false l

/-! ## rag_api.py: answer coercion (`_coerce_answer`) -/

/-- The `AnswerType = Union[str, int, float]` of rag_api.py. -/
inductive AnswerType where
  | str (s : String)
  | int (n : Int)
  | float (v : PyFloat)
deriving DecidableEq, Repr

/-- `_coerce_answer` from rag_api.py: strip; empty becomes `""`; try
`int(stripped)`; then `float(stripped.replace(",", "."))`; else the
stripped string. -/
def coerce_answer (raw_answer : String) : AnswerType :=
  if pyStrip raw_answer = "" then .str ""
  else
    match pyInt? (pyStrip raw_answer) with
    | some n => .int n
    | none =>
      match pyFloat? (replaceCommas (pyStrip raw_answer)) with
      | some v => .float v
      | none => .str (pyStrip raw_answer)

/-- The coercion exactly as the specification words it (claim C1): the
integer the trimmed text parses to when it parses as an integer, else the
float the trimmed text itself parses to, else the string. -/
def claimedCoerce (raw_answer : String) : AnswerType :=
  match pyInt? (pyStrip raw_answer) with
  | some n => .int n
  | none =>
    match pyFloat? (pyStrip raw_answer) with
    | some v => .float v
    | none => .str (pyStrip raw_answer)

/-- The coercion as the specification must be amended: the float parse is
attempted on the trimmed text with every comma replaced by a period. -/
def claimedCoerceAmended (raw_answer : String) : AnswerType :=
  match pyInt? (pyStrip raw_answer) with
  | some n => .int n
  | none =>
    match pyFloat? (replaceCommas (pyStrip raw_answer)) with
    | some v => .float v
    | none => .str (pyStrip raw_answer)


/-! ## Documents and metadata (langchain `Document` as used here)

Every metadata access in the repository goes through `dict.get`, so the
metadata dictionary is modelled as a record of `Option` fields, one per
key the code ever writes or reads. -/

/-- The metadata dictionary attached to a `Document` during ingestion:
keys `document_name`, `source_path`, `page_number`, `source_type`.  A
`none` field models an absent key. -/
structure DocMetadata where
  document_name : Option String
  source_path : Option String
  page_number : Option Int
  source_type : Option String
deriving DecidableEq, Repr

/-- A langchain `Document`: page content plus metadata. -/
structure Document where
  page_content : String
  metadata : DocMetadata
deriving DecidableEq, Repr

/-! ## rag_data.py: ingestion -/

/-- `MIN_CHARS_PER_PAGE` from rag_data.py. -/
def MIN_CHARS_PER_PAGE : Nat := 50

/-- `SUPPORTED_TEXT_EXTENSIONS` from rag_data.py. -/
def SUPPORTED_TEXT_EXTENSIONS : List String := [".txt", ".md"]

/-- A file met by the `DATA_DIR` walk of rag_data.py: its base name, its
extension (`path.suffix`), its path relative to the project
(`_relative_path`), the string `path.read_text` would return, and the
per-page `page.extract_text()` results pypdf would return (`none`
modelling an extractor returning `None`).  A file is only ever read in
one of the two ways, the other field is simply unused. -/
structure SrcFile where
  name : String
  ext : String
  relPath : String
  textContent : String
  pdfPages : List (Option String)
deriving Repr

/-- `path.suffix.lower().lstrip(".") or "text"` from `load_text_document`. -/
def source_type_of_ext (ext : String) : String :=
  let st := String.mk ((pyLower ext).toList.dropWhile (fun c => c = '.'))
  if st = "" then "text" else st

/-- `load_text_document` from rag_data.py: read, strip, drop the file when
the stripped text is shorter than `MIN_CHARS_PER_PAGE`, else one document
with page number 1. -/
def load_text_document (f : SrcFile) : List Document :=
  let text := pyStrip f.textContent
  if text.length < MIN_CHARS_PER_PAGE then []
  else [⟨text, ⟨some f.name, some f.relPath, some 1, some (source_type_of_ext f.ext)⟩⟩]

/-- The page loop of `load_pdf_document` from rag_data.py, with
`page_index` starting at 1 (`enumerate(reader.pages, start=1)`): each
page's text is `page.extract_text() or ""`, stripped; pages below
`MIN_CHARS_PER_PAGE` are skipped. -/
def load_pdf_pages (f : SrcFile) (page_index : Nat) : List (Option String) → List Document
  | [] => []
  | p :: rest =>
    let text := pyStrip (p.getD "")
    if text.length < MIN_CHARS_PER_PAGE then load_pdf_pages f (page_index + 1) rest
    else ⟨text, ⟨some f.name, some f.relPath, some ((page_index : Int)), some "pdf"⟩⟩
      :: load_pdf_pages f (page_index + 1) rest

/-- `load_pdf_document` from rag_data.py (pypdf assumed installed). -/
def load_pdf_document (f : SrcFile) : List Document :=
  load_pdf_pages f 1 f.pdfPages

/-- `load_legal_documents` from rag_data.py over the sorted list of files
found under `DATA_DIR`: dispatch on the lower-cased extension, skip
unsupported files, concatenate what the loaders return. -/
def load_legal_documents : List SrcFile → List Document
  | [] => []
  | f :: rest =>
    if pyLower f.ext = ".pdf" then
      load_pdf_document f ++ load_legal_documents rest
    else if pyLower f.ext ∈ SUPPORTED_TEXT_EXTENSIONS then
      load_text_document f ++ load_legal_documents rest
    else
      load_legal_documents rest

/-- Contents of the persisted Chroma directory after a build: the chunks
it was built from. -/
structure StoreState where
  chunks : List Document
deriving DecidableEq, Repr

/-- `build_vector_store` from rag_data.py as a transformer of the
persisted directory (`none` = the directory does not exist).  The
splitter (`RecursiveCharacterTextSplitter.split_documents`) and the
embedding client are external libraries and enter as a parameter.  When
no documents load, the function returns before touching the directory;
otherwise the old directory is removed (if present), recreated, and the
store is built from the chunks of the freshly loaded documents. -/
def build_vector_store (splitter : List Document → List Document)
    (files : List SrcFile) (persist : Option StoreState) : Option StoreState :=
  let documents := load_legal_documents files
  if documents = [] then persist
  else some ⟨splitter documents⟩

/-! ## rag_pipeline.py: the query pipeline

The external world — whether the persisted directory exists, what the
Chroma `similarity_search` returns, and what the chat-completion model
answers — is a record of oracles; the lazily initialised module-global
`_vector_store` handle is the explicit `PipelineState`. -/

/-- String form of `PERSIST_DIR` (relative to the module directory). -/
def PERSIST_DIR : String := "chroma_db/kz_legal_codes"

/-- `DEFAULT_TOP_K` from rag_pipeline.py. -/
def DEFAULT_TOP_K : Int := 5

/-- The environment of a running process: filesystem state and the two
external services, as oracles.  `search q k` is what
`vector_store.similarity_search(q, k=k)` returns; `llm m` is the
`.content` of the chat model's reply to the rendered prompt `m`. -/
structure World where
  persistDirExists : Bool
  search : String → Int → List Document
  llm : String → String

/-- The module-global mutable state of rag_pipeline.py that the claims
depend on: whether `_vector_store` has been initialised (is not `None`). -/
structure PipelineState where
  vectorStoreInit : Bool
deriving DecidableEq, Repr

/-- The exception `query_rag` can raise that the endpoint distinguishes. -/
inductive PipelineError where
  | fileNotFound (msg : String)
deriving DecidableEq, Repr

/-- The `FileNotFoundError` message raised by `get_vector_store`. -/
def missingStoreMsg : String :=
  "Vector store directory " ++ PERSIST_DIR ++ " is missing. Run rag_data.py to build it."

/-- `get_vector_store` from rag_pipeline.py: when the handle is already
initialised it is returned at once; only on first use is the persisted
directory checked, raising `FileNotFoundError` when it is missing. -/
def get_vector_store (w : World) (st : PipelineState) :
    Except PipelineError PipelineState :=
  if st.vectorStoreInit then .ok st
  else if w.persistDirExists then .ok ⟨true⟩
  else .error (.fileNotFound missingStoreMsg)

/-- One block of `_format_context`: `[{name}{page_info}]\n{content}`, the
name defaulting to the Russian for "unknown document" and the page part
present only when the page number is truthy (present and nonzero). -/
def format_context_part (chunk : Document) : String :=
  let name := (chunk.metadata.document_name).getD "Неизвестный документ"
  let page_info :=
    match chunk.metadata.page_number with
    | some p => if p = 0 then "" else ", страница " ++ toString p
    | none => ""
  "[" ++ name ++ page_info ++ "]" ++ "\n" ++ chunk.page_content

/-- `_format_context` from rag_pipeline.py. -/
def format_context (chunks : List Document) : String :=
  String.intercalate ("\n" ++ "\n") (chunks.map format_context_part)

/-- The literal text of `_PROMPT` before the `{context}` slot. -/
def PROMPT_BEFORE_CONTEXT : String :=
  "Ты — юридический ассистент. Отвечай только на основе переданного контекста из нормативных актов РК.\n\nПравила:\n1. Если информации недостаточно, ответь \"Я не знаю\".\n2. Не выдумывай факты и не используй внешние знания.\n3. Отвечай кратко и на английском языке.\n\nКонтекст:\n"

/-- The literal text of `_PROMPT` between `{context}` and `{question}`. -/
def PROMPT_BEFORE_QUESTION : String := "\n\nВопрос: "

/-- The literal text of `_PROMPT` after the `{question}` slot. -/
def PROMPT_AFTER_QUESTION : String := "\n\nОтвет:"

/-- `_PROMPT.invoke({"context": ..., "question": ...})`: the template has
exactly one slot for each variable, so rendering is concatenating the
literal segments around the two values. -/
def render_prompt (context question : String) : String :=
  PROMPT_BEFORE_CONTEXT ++ context ++ PROMPT_BEFORE_QUESTION ++ question
    ++ PROMPT_AFTER_QUESTION

/-- `query_rag` from rag_pipeline.py: obtain the store (possibly raising),
run the similarity search; an empty retrieval short-circuits to the fixed
answer with no chunks and no model call; otherwise format the context,
render the prompt, ask the chat model and strip its reply.  The returned
`PipelineState` is the module state after the call. -/
def query_rag (w : World) (st : PipelineState) (question : String) (top_k : Int) :
    Except PipelineError (String × List Document) × PipelineState :=
  match get_vector_store w st with
  | .error e => (.error e, st)
  | .ok st' =>
    let retrieved := w.search question top_k
    if retrieved = [] then (.ok ("Я не знаю", []), st')
    else
      let context := format_context retrieved
      let message := render_prompt context question
      let answer := pyStrip (w.llm message)
      (.ok (answer, retrieved), st')

/-- The dictionary `{"document_name": ..., "page_number": ...}` built by
`collect_chunk_metadata`; it is also its own deduplication key
`(name, page)`, and it is what a `RelevantChunk` of the response holds. -/
structure ChunkMeta where
  document_name : Option String
  page_number : Option Int
deriving DecidableEq, Repr

/-- The `(name, page)` entry of a retrieved chunk. -/
def chunkKey (c : Document) : ChunkMeta :=
  ⟨c.metadata.document_name, c.metadata.page_number⟩

/-- The loop of `collect_chunk_metadata`, carrying the `seen` set (here
the list of keys already seen — only membership is ever used). -/
def collect_chunk_metadata_go (seen : List ChunkMeta) :
    List Document → List ChunkMeta
  | [] => []
  | c :: rest =>
    if chunkKey c ∈ seen then collect_chunk_metadata_go seen rest
    else chunkKey c :: collect_chunk_metadata_go (chunkKey c :: seen) rest

/-- `collect_chunk_metadata` from rag_pipeline.py. -/
def collect_chunk_metadata (chunks : List Document) : List ChunkMeta :=
  collect_chunk_metadata_go [] chunks

/-- Reference form of "keep the first occurrence of each element": keep
the head, delete its later duplicates, recurse. -/
def firstOccurrences : List ChunkMeta → List ChunkMeta
  | [] => []
  | x :: xs => x :: firstOccurrences (xs.filter (fun y => decide (y ≠ x)))
termination_by l => l.length
decreasing_by
  simp only [List.length_cons]
  exact Nat.lt_succ_of_le (List.length_filter_le _ _)

/-! ## rag_api.py: the HTTP endpoint -/

/-- The request item `QuestionPayload` of rag_api.py. -/
structure QuestionPayload where
  question_id : Int
  question : String
  top_k : Option Int
deriving DecidableEq, Repr

/-- The request body `QuestionsBatch` of rag_api.py. -/
structure QuestionsBatch where
  questions : List QuestionPayload
  default_top_k : Option Int
deriving DecidableEq, Repr

/-- The response item `QueryResponse` of rag_api.py (a `RelevantChunk`
carries exactly the fields of a `ChunkMeta`). -/
structure QueryResponse where
  question_id : Int
  relevant_chunks : List ChunkMeta
  answer : AnswerType
deriving DecidableEq, Repr

/-- A raised fastapi `HTTPException`. -/
structure HTTPExc where
  status_code : Int
  detail : String
deriving DecidableEq, Repr

/-- Python `x or y` on an optional integer: `None` and `0` are falsy. -/
def orTruthy (x : Option Int) (y : Int) : Int :=
  match x with
  | none => y
  | some n => if n = 0 then y else n

/-- The result count the endpoint hands to retrieval for one question:
`top_k = item.top_k or (payload.default_top_k or 5)`. -/
def effective_top_k (item_top_k default_top_k : Option Int) : Int :=
  orTruthy item_top_k (orTruthy default_top_k 5)

/-- The per-question loop of `query_endpoint`: compute the question's
`top_k`, call `query_rag` (translating `FileNotFoundError` to a 503 and
abandoning the batch), collect deduplicated chunk metadata, coerce the
answer, and continue with the module state the call left behind. -/
def process_questions (w : World) (st : PipelineState) (fallback_k : Int) :
    List QuestionPayload → Except HTTPExc (List QueryResponse) × PipelineState
  | [] => (.ok [], st)
  | item :: rest =>
    match query_rag w st item.question (orTruthy item.top_k fallback_k) with
    | (.error (.fileNotFound msg), st') => (.error ⟨503, msg⟩, st')
    | (.ok (answer, chunks), st') =>
      match process_questions w st' fallback_k rest with
      | (.error e, st2) => (.error e, st2)
      | (.ok rs, st2) =>
        (.ok (⟨item.question_id, collect_chunk_metadata chunks, coerce_answer answer⟩ :: rs), st2)

/-- `query_endpoint` from rag_api.py: an empty batch is rejected with a
400 before anything runs; otherwise the questions are processed
sequentially with `fallback_k = payload.default_top_k or 5`. -/
def query_endpoint (w : World) (st : PipelineState) (payload : QuestionsBatch) :
    Except HTTPExc (List QueryResponse) × PipelineState :=
  match payload.questions with
  | [] => (.error ⟨400, "Payload must contain at least one question"⟩, st)
  | q :: rest => process_questions w st (orTruthy payload.default_top_k 5) (q :: rest)

/-! ## api.py: the credential loader -/

/-- Module import of api.py, over the environment (after `load_dotenv`):
`os.getenv("OPENAI_API_KEY")` is `none` when the variable is unset; the
module raises `ValueError` when the value is missing or falsy (the empty
string), else binds the key. -/
def load_openai_key (env : String → Option String) : Except String String :=
  match env "OPENAI_API_KEY" with
  | none => .error "❌ OpenAI API key not found in .env file"
  | some k =>
    if k = "" then .error "❌ OpenAI API key not found in .env file"
    else .ok k

/-! ## Specification-side definitions and concrete fixtures -/

/-- The result count exactly as claim C4 words it: the question's own
`top_k` when it provides one, else the batch `default_top_k` when the
batch provides one, else 5. -/
def claimedTopK (item_top_k default_top_k : Option Int) : Int :=
  item_top_k.getD (default_top_k.getD 5)

/-- The batch-level fallback as claim C4 must be amended: a provided but
zero `default_top_k` also falls through to 5. -/
def amendedDefaultK (default_top_k : Option Int) : Int :=
  match default_top_k with
  | some m => if m ≠ 0 then m else 5
  | none => 5

/-- The result count as claim C4 must be amended: a `top_k` of `0` counts
as not provided (Python falsiness), and likewise for `default_top_k`. -/
def amendedTopK (item_top_k default_top_k : Option Int) : Int :=
  match item_top_k with
  | some n => if n ≠ 0 then n else amendedDefaultK default_top_k
  | none => amendedDefaultK default_top_k

/-- A text file whose stripped content is far above `MIN_CHARS_PER_PAGE`. -/
def sampleTxtFile : SrcFile :=
  ⟨"law.txt", ".txt", "data/laws/law.txt",
   "This sample legal text is certainly longer than the fifty character minimum.", []⟩

/-- A text file whose stripped content is below `MIN_CHARS_PER_PAGE`. -/
def shortTxtFile : SrcFile :=
  ⟨"tiny.txt", ".txt", "data/laws/tiny.txt", "short", []⟩

/-- A PDF whose single page is below `MIN_CHARS_PER_PAGE`. -/
def shortPdfFile : SrcFile :=
  ⟨"tiny.pdf", ".pdf", "data/laws/tiny.pdf", "", [some "tiny page"]⟩

/-- A world whose persisted directory exists and whose retrieval finds
nothing. -/
def okWorld : World := ⟨true, fun _ _ => [], fun _ => "42"⟩

/-- A world whose persisted directory is missing. -/
def goneWorld : World := ⟨false, fun _ _ => [], fun _ => ""⟩

/-- A two-question batch with distinct question ids. -/
def twoQuestionBatch : QuestionsBatch :=
  ⟨[⟨10, "a", none⟩, ⟨20, "b", some 2⟩], none⟩

/-- A stale store left behind by an earlier ingestion run. -/
def staleStore : StoreState :=
  ⟨[⟨"stale chunk", ⟨some "old.txt", some "old.txt", some 1, some "txt"⟩⟩]⟩

/-! ## Theorems for the claims -/

/-- C1 counterexample: the answer string `"3,5"` does not parse as a
float as trimmed, so the claim as stated returns it as a string, but
`_coerce_answer` replaces the comma first and returns the float 3.5. -/
theorem coerce_comma_counterexample :
    coerce_answer "3,5" = AnswerType.float (.finite (mkRat 7 2)) ∧
    claimedCoerce "3,5" = AnswerType.str "3,5" := by
  decide

/-- C1 (amended): for every answer string the value placed in the
response is the integer the trimmed text parses to when it parses as an
integer, otherwise the float the trimmed text parses to after every comma
is replaced by a period, otherwise the trimmed string itself; in
particular `"3"` is returned as the integer 3. -/
theorem coerce_matches_amended_spec :
    (∀ s : String, coerce_answer s = claimedCoerceAmended s) ∧
    coerce_answer "3" = AnswerType.int 3 := by
  constructor
  · intro s
    by_cases h : pyStrip s = ""
    · simp only [coerce_answer, claimedCoerceAmended, h]
      decide
    · simp only [coerce_answer, claimedCoerceAmended, if_neg h]
  · decide

/-- C4 counterexample: a question that provides `top_k = 0` with a batch
default of 7 is retrieved with 7 results, not with its own 0 as the claim
states. -/
theorem top_k_zero_counterexample :
    effective_top_k (some 0) (some 7) = 7 ∧
    claimedTopK (some 0) (some 7) = 0 := by
  decide

/-- C4 (amended): the result count passed to retrieval is the question's
own `top_k` when it provides a nonzero one, otherwise the batch's
`default_top_k` when the batch provides a nonzero one, otherwise 5. -/
theorem effective_top_k_matches_amended_spec (item_top_k default_top_k : Option Int) :
    effective_top_k item_top_k default_top_k = amendedTopK item_top_k default_top_k := by
  cases item_top_k with
  | none =>
    cases default_top_k with
    | none => rfl
    | some m => simp [effective_top_k, orTruthy, amendedTopK, amendedDefaultK, ite_not]
  | some n =>
    cases default_top_k with
    | none => simp [effective_top_k, orTruthy, amendedTopK, amendedDefaultK, ite_not]
    | some m => simp [effective_top_k, orTruthy, amendedTopK, amendedDefaultK, ite_not]

/-- C8 counterexample: an environment in which the key is present but
empty still aborts startup, while the claim says a present key lets
startup proceed. -/
theorem openai_key_empty_counterexample :
    load_openai_key (fun _ => some "") = .error "❌ OpenAI API key not found in .env file" ∧
    load_openai_key (fun _ => some "") ≠ .ok "" :=
  ⟨rfl, fun h => Except.noConfusion h⟩

/-- C8 (amended): module import fails when the key is absent from the
environment or present with an empty value, and proceeds (binding the
key) when it is present and non-empty. -/
theorem openai_key_matches_amended_spec (env : String → Option String) :
    (env "OPENAI_API_KEY" = none →
      load_openai_key env = .error "❌ OpenAI API key not found in .env file") ∧
    (env "OPENAI_API_KEY" = some "" →
      load_openai_key env = .error "❌ OpenAI API key not found in .env file") ∧
    (∀ k, env "OPENAI_API_KEY" = some k → k ≠ "" → load_openai_key env = .ok k) := by
  refine ⟨fun h => ?_, fun h => ?_, fun k hk hne => ?_⟩
  · simp [load_openai_key, h]
  · simp [load_openai_key, h]
  · simp [load_openai_key, hk, hne]

/-- Witness for C8: both hypotheses of the amended claim are satisfiable:
a missing key and an empty key abort, a non-empty key loads. -/
theorem openai_key_matches_amended_spec_witness :
    load_openai_key (fun _ => none) = .error "❌ OpenAI API key not found in .env file" ∧
    load_openai_key (fun _ => some "") = .error "❌ OpenAI API key not found in .env file" ∧
    load_openai_key (fun _ => some "sk-test") = .ok "sk-test" :=
  ⟨(openai_key_matches_amended_spec (fun _ => none)).1 rfl,
   (openai_key_matches_amended_spec (fun _ => some "")).2.1 rfl,
   (openai_key_matches_amended_spec (fun _ => some "sk-test")).2.2 "sk-test" rfl (by decide)⟩

/-- C10: a batch with an empty questions list is rejected with a 400 for
every world and every module state, the state is left unchanged, and the
result does not depend on the retrieval or chat oracles (the whole world
is universally quantified), so no per-question processing occurs. -/
theorem query_endpoint_empty_batch_400 (w : World) (st : PipelineState) (d : Option Int) :
    query_endpoint w st ⟨[], d⟩ =
      (.error ⟨400, "Payload must contain at least one question"⟩, st) := by
  rfl

/-- C3 counterexample: an ingestion run that loads no documents returns
before touching the persisted directory, so the stale store of a previous
run survives that invocation, and the run's result still depends on the
previous state. -/
theorem build_vector_store_preserves_stale_state :
    build_vector_store id [] (some staleStore) = some staleStore ∧
    build_vector_store id [] none = none := by
  decide

/-- C3 (amended): on every ingestion run that loads at least one
document, the persisted directory is rebuilt from scratch: the result is
exactly the store built from the freshly split documents, independent of
whatever was persisted before. -/
theorem build_vector_store_rebuilds_when_docs_load
    (splitter : List Document → List Document) (files : List SrcFile)
    (persist persist' : Option StoreState)
    (h : load_legal_documents files ≠ []) :
    build_vector_store splitter files persist
      = some ⟨splitter (load_legal_documents files)⟩ ∧
    build_vector_store splitter files persist
      = build_vector_store splitter files persist' := by
  constructor
  · simp [build_vector_store, h]
  · simp [build_vector_store, h]

/-- Witness for C3: a run over one sufficiently long text file rebuilds
the store whether or not an old directory exists. -/
theorem build_vector_store_rebuilds_when_docs_load_witness :
    build_vector_store id [sampleTxtFile] (some staleStore)
      = some ⟨id (load_legal_documents [sampleTxtFile])⟩ ∧
    build_vector_store id [sampleTxtFile] (some staleStore)
      = build_vector_store id [sampleTxtFile] none :=
  build_vector_store_rebuilds_when_docs_load id [sampleTxtFile]
    (some staleStore) none (by decide)

/-- Every document produced by the PDF page loop comes from some page at
offset `j` of the remaining page list, carries page number `k + j`, and
that page's stripped text is not below the minimum length. -/
lemma mem_load_pdf_pages {f : SrcFile} {d : Document} :
    ∀ {pages : List (Option String)} {k : Nat}, d ∈ load_pdf_pages f k pages →
    ∃ j : Nat, ∃ hj : j < pages.length,
      d.metadata.page_number = some ((k + j : Nat) : Int) ∧
      ¬ (pyStrip ((pages.get ⟨j, hj⟩).getD "")).length < MIN_CHARS_PER_PAGE := by
  intro pages
  induction pages with
  | nil => intro k hd; simp [load_pdf_pages] at hd
  | cons p rest ih =>
    intro k hd
    simp only [load_pdf_pages] at hd
    by_cases hshort : (pyStrip (p.getD "")).length < MIN_CHARS_PER_PAGE
    · rw [if_pos hshort] at hd
      obtain ⟨j, hj, hpn, hlong⟩ := ih hd
      refine ⟨j + 1, by simpa using Nat.succ_lt_succ hj, ?_, ?_⟩
      · rw [hpn]
        congr 2
        omega
      · simpa using hlong
    · rw [if_neg hshort] at hd
      rcases List.mem_cons.mp hd with rfl | hd'
      · exact ⟨0, by simp, by simp, by simpa using hshort⟩
      · obtain ⟨j, hj, hpn, hlong⟩ := ih hd'
        refine ⟨j + 1, by simpa using Nat.succ_lt_succ hj, ?_, ?_⟩
        · rw [hpn]
          congr 2
          omega
        · simpa using hlong

/-- C5: during ingestion every extracted page whose stripped text is
shorter than the 50-character minimum is dropped — a short text file
loads to no documents at all, and a short PDF page contributes no
document bearing its page number. -/
theorem short_pages_dropped :
    (∀ f : SrcFile, (pyStrip f.textContent).length < MIN_CHARS_PER_PAGE →
      load_text_document f = []) ∧
    (∀ (f : SrcFile) (i : Nat) (hi : i < f.pdfPages.length),
      (pyStrip ((f.pdfPages.get ⟨i, hi⟩).getD "")).length < MIN_CHARS_PER_PAGE →
      ∀ d ∈ load_pdf_document f, d.metadata.page_number ≠ some ((i : Int) + 1)) := by
  constructor
  · intro f h
    simp [load_text_document, h]
  · intro f i hi hshort d hd heq
    obtain ⟨j, hj, hpn, hlong⟩ := mem_load_pdf_pages hd
    rw [heq] at hpn
    have hint : ((i : Int) + 1) = ((1 + j : Nat) : Int) := Option.some.inj hpn
    have hij : j = i := by omega
    subst hij
    exact hlong hshort

/-- Witness for C5: a 5-character text file loads to nothing, and a PDF
whose only page has 9 characters yields no document for page 1. -/
theorem short_pages_dropped_witness :
    load_text_document shortTxtFile = [] ∧
    ∀ d ∈ load_pdf_document shortPdfFile,
      d.metadata.page_number ≠ some (((0 : Nat) : Int) + 1) :=
  ⟨short_pages_dropped.1 shortTxtFile (by decide),
   short_pages_dropped.2 shortPdfFile 0 (by decide) (by decide)⟩

/-- Membership in `firstOccurrences` implies membership in the input. -/
lemma mem_of_mem_firstOccurrences :
    ∀ {l : List ChunkMeta} {a : ChunkMeta}, a ∈ firstOccurrences l → a ∈ l := by
  intro l
  induction l using firstOccurrences.induct with
  | case1 => intro a ha; simp [firstOccurrences] at ha
  | case2 x xs ih =>
    intro a ha
    rw [firstOccurrences] at ha
    rcases List.mem_cons.mp ha with rfl | ha'
    · exact List.mem_cons_self _ _
    · exact List.mem_cons_of_mem _ (List.mem_of_mem_filter (ih ha'))

/-- `firstOccurrences` never repeats an element. -/
lemma nodup_firstOccurrences : ∀ l : List ChunkMeta, (firstOccurrences l).Nodup := by
  intro l
  induction l using firstOccurrences.induct with
  | case1 => simp [firstOccurrences]
  | case2 x xs ih =>
    rw [firstOccurrences]
    refine List.nodup_cons.mpr ⟨?_, ih⟩
    intro hx
    have hmem := mem_of_mem_firstOccurrences hx
    have := List.of_mem_filter hmem
    simp at this

/-- The seen-set loop equals first-occurrence deduplication of the keys
not yet seen. -/
lemma collect_chunk_metadata_go_eq (l : List Document) :
    ∀ seen : List ChunkMeta,
      collect_chunk_metadata_go seen l =
        firstOccurrences ((l.map chunkKey).filter (fun m => decide (m ∉ seen))) := by
  induction l with
  | nil => intro seen; simp [collect_chunk_metadata_go, firstOccurrences]
  | cons c rest ih =>
    intro seen
    simp only [List.map_cons]
    by_cases hmem : chunkKey c ∈ seen
    · rw [List.filter_cons_of_neg (by simpa using hmem)]
      simp only [collect_chunk_metadata_go, if_pos hmem]
      exact ih seen
    · rw [List.filter_cons_of_pos (by simpa using hmem)]
      simp only [collect_chunk_metadata_go, if_neg hmem]
      rw [firstOccurrences, ih (chunkKey c :: seen), List.filter_filter]
      congr 1
      congr 1
      apply List.filter_congr
      intro x _
      by_cases h1 : x = chunkKey c <;> by_cases h2 : x ∈ seen <;>
        simp [h1, h2, List.mem_cons]

/-- C6: `collect_chunk_metadata` returns each `(document_name,
page_number)` pair at most once, and the output is exactly the
first-occurrence deduplication of the chunk key sequence in input
order. -/
theorem collect_chunk_metadata_first_occurrence_dedup (chunks : List Document) :
    (collect_chunk_metadata chunks).Nodup ∧
    collect_chunk_metadata chunks = firstOccurrences (chunks.map chunkKey) := by
  have h := collect_chunk_metadata_go_eq chunks []
  have hfilter : (chunks.map chunkKey).filter
      (fun m => decide (m ∉ ([] : List ChunkMeta))) = chunks.map chunkKey := by
    simp
  rw [hfilter] at h
  exact ⟨by rw [collect_chunk_metadata, h]; exact nodup_firstOccurrences _,
    by rw [collect_chunk_metadata, h]⟩

/-- When the handle is initialised or the directory exists,
`get_vector_store` succeeds and leaves the handle initialised. -/
lemma get_vector_store_ok (w : World) (st : PipelineState)
    (h : st.vectorStoreInit = true ∨ w.persistDirExists = true) :
    get_vector_store w st = .ok ⟨true⟩ := by
  obtain ⟨b⟩ := st
  rcases h with h | h
  · simp only at h
    subst h
    rfl
  · cases b
    · simp [get_vector_store, h]
    · rfl

/-- When the handle is initialised or the directory exists, `query_rag`
returns a result and leaves the handle initialised. -/
lemma query_rag_ok_of_ready (w : World) (st : PipelineState) (q : String) (k : Int)
    (h : st.vectorStoreInit = true ∨ w.persistDirExists = true) :
    ∃ res, query_rag w st q k = (.ok res, ⟨true⟩) := by
  unfold query_rag
  rw [get_vector_store_ok w st h]
  dsimp only
  by_cases hr : w.search q k = []
  · exact ⟨_, by rw [if_pos hr]⟩
  · exact ⟨_, by rw [if_neg hr]⟩

/-- C9: whenever the similarity search comes back empty, `query_rag`
answers the fixed string and an empty chunk list.  The world — including
the chat-completion oracle — is universally quantified and the result is
fixed, so the chat model cannot have been consulted. -/
theorem query_rag_empty_retrieval (w : World) (st : PipelineState)
    (question : String) (top_k : Int)
    (hready : st.vectorStoreInit = true ∨ w.persistDirExists = true)
    (hempty : w.search question top_k = []) :
    query_rag w st question top_k = (.ok ("Я не знаю", []), ⟨true⟩) := by
  unfold query_rag
  rw [get_vector_store_ok w st hready]
  dsimp only
  rw [if_pos hempty]

/-- Witness for C9: a ready store and an empty retrieval produce the
fixed answer, whatever the chat oracle would have said. -/
theorem query_rag_empty_retrieval_witness :
    query_rag okWorld ⟨false⟩ "q" 5 = (.ok ("Я не знаю", []), ⟨true⟩) :=
  query_rag_empty_retrieval okWorld ⟨false⟩ "q" 5 (Or.inr rfl) rfl

/-- C2 counterexample: the persisted directory is missing at query time,
yet — because the vector-store handle was initialised earlier — the
request succeeds with an answer instead of failing with a 503. -/
theorem missing_dir_warm_cache_not_503 :
    query_endpoint goneWorld ⟨true⟩ ⟨[⟨1, "q", none⟩], none⟩
      = (.ok [⟨1, [], .str "Я не знаю"⟩], ⟨true⟩) ∧
    (query_endpoint goneWorld ⟨true⟩ ⟨[⟨1, "q", none⟩], none⟩).1
      ≠ .error ⟨503, missingStoreMsg⟩ := by
  constructor
  · rfl
  · intro h
    exact Except.noConfusion h

/-- C2 (amended): when the vector-store handle has not yet been
initialised and the persisted directory is missing, any non-empty batch
fails with a 503 carrying the missing-directory message, no answer is
returned for any question, and the module state is unchanged. -/
theorem missing_dir_cold_start_503 (w : World) (st : PipelineState)
    (payload : QuestionsBatch)
    (hcold : st.vectorStoreInit = false) (hmiss : w.persistDirExists = false)
    (hne : payload.questions ≠ []) :
    query_endpoint w st payload = (.error ⟨503, missingStoreMsg⟩, st) := by
  obtain ⟨qs, d⟩ := payload
  cases qs with
  | nil => exact absurd rfl hne
  | cons q rest =>
    simp only [query_endpoint, process_questions, query_rag, get_vector_store,
      hcold, hmiss, Bool.false_eq_true, if_false]

/-- Witness for C2: a missing directory and a cold handle turn a
one-question batch into a 503. -/
theorem missing_dir_cold_start_503_witness :
    query_endpoint goneWorld ⟨false⟩ ⟨[⟨1, "q", none⟩], none⟩
      = (.error ⟨503, missingStoreMsg⟩, ⟨false⟩) :=
  missing_dir_cold_start_503 goneWorld ⟨false⟩ ⟨[⟨1, "q", none⟩], none⟩
    rfl rfl (by decide)

/-- When the store is ready, the per-question loop raises nothing and
returns one response per question, in order, with matching ids. -/
lemma process_questions_ok (w : World) (k : Int) :
    ∀ (items : List QuestionPayload) (st : PipelineState),
      st.vectorStoreInit = true ∨ w.persistDirExists = true →
      ∃ rs : List QueryResponse, ∃ st2 : PipelineState,
        process_questions w st k items = (.ok rs, st2) ∧
        rs.map (fun r => r.question_id) = items.map (fun i => i.question_id) := by
  intro items
  induction items with
  | nil => exact fun st _ => ⟨[], st, rfl, rfl⟩
  | cons item rest ih =>
    intro st h
    obtain ⟨⟨answer, chunks⟩, hres⟩ :=
      query_rag_ok_of_ready w st item.question (orTruthy item.top_k k) h
    obtain ⟨rs, st2, hps, hmap⟩ := ih ⟨true⟩ (Or.inl rfl)
    refine ⟨⟨item.question_id, collect_chunk_metadata chunks, coerce_answer answer⟩ :: rs,
      st2, ?_, ?_⟩
    · simp only [process_questions, hres, hps]
    · simp [hmap]

/-- C7: a non-empty batch on which no question raises (the store is
reachable, and the modelled oracles are total) yields exactly one
response per question, in the same order, each carrying the
corresponding question's id. -/
theorem query_endpoint_batch_order (w : World) (st : PipelineState)
    (payload : QuestionsBatch)
    (hne : payload.questions ≠ [])
    (hready : st.vectorStoreInit = true ∨ w.persistDirExists = true) :
    ∃ rs : List QueryResponse, ∃ st2 : PipelineState,
      query_endpoint w st payload = (.ok rs, st2) ∧
      rs.length = payload.questions.length ∧
      rs.map (fun r => r.question_id)
        = payload.questions.map (fun q => q.question_id) := by
  obtain ⟨qs, d⟩ := payload
  cases qs with
  | nil => exact absurd rfl hne
  | cons q rest =>
    obtain ⟨rs, st2, hps, hmap⟩ := process_questions_ok w (orTruthy d 5) (q :: rest) st hready
    refine ⟨rs, st2, hps, ?_, hmap⟩
    have := congrArg List.length hmap
    simpa using this

/-- Witness for C7: a concrete two-question batch against a ready world
returns two responses whose ids are 10 then 20. -/
theorem query_endpoint_batch_order_witness :
    ∃ rs : List QueryResponse, ∃ st2 : PipelineState,
      query_endpoint okWorld ⟨false⟩ twoQuestionBatch = (.ok rs, st2) ∧
      rs.length = twoQuestionBatch.questions.length ∧
      rs.map (fun r => r.question_id)
        = twoQuestionBatch.questions.map (fun q => q.question_id) :=
  query_endpoint_batch_order okWorld ⟨false⟩ twoQuestionBatch (by decide) (Or.inr rfl)

end RAGSystem
